import Mathlib

/-!
# Shallow embedding of the bookyard backend (vijender883/bookyard)

This file embeds the credit / reservation core of the backend
(`src/backend/app/api/endpoints/{reservations,profiles,books}.py`,
`src/backend/app/core/auth.py`, data model in
`src/backend/app/models/book.py`) as pure Lean functions over an explicit
database state, and proves or refutes the specification claims about it.

Modelling conventions:
* UUIDs and integer primary keys are both modelled as `Nat`.
* `datetime` values are modelled as `Int` timestamps (only ordering is used).
* Python `int` is modelled as `Int` (unbounded, possibly negative).
* A SQL table is a `List` of rows; `session.get(T, k)` is `List.find?` on the
  primary-key field.
* Each endpoint is a function `... → DB → Except ApiError (DB × result)`.
  Raising `HTTPException` before `session.commit()` leaves the database
  unchanged, so an `.error` result carries no state: the state passed in is
  the state after the call.  An uncaught Python exception (attribute access
  on `None`) is modelled as the distinguished error `nullProfileAccess`,
  which likewise happens before any commit.
-/

namespace Bookyard

/-- `ReservationStatus` enum (models/book.py). -/
inductive ReservationStatus
  | pending
  | active
  | completed
  | cancelled
deriving DecidableEq, Repr

/-- `Profile` row (models/book.py): identity, optional username and the
credits balance; fields not read or written by the embedded endpoints
(`full_name`, `avatar_url`, `role`, `parent_id`, timestamps) are omitted. -/
structure Profile where
  id : Nat
  username : Option String := none
  credits : Int := 0
deriving DecidableEq, Repr

/-- `Book` row (models/book.py); of the catalog fields only those the
embedded endpoints read or write are kept. -/
structure Book where
  id : Nat
  title : String
  author : String
  isActive : Bool := true
  ownerId : Nat
deriving DecidableEq, Repr

/-- `Reservation` row (models/book.py). -/
structure Reservation where
  id : Nat
  bookId : Nat
  borrowerId : Nat
  status : ReservationStatus := .pending
  startDate : Int
  endDate : Int
  creditsUsed : Int := 0
deriving DecidableEq, Repr

/-- `CreditsHistory` row (models/book.py): signed amount and a type tag
such as "daily_bonus" or "reservation_spend". -/
structure CreditsHistory where
  userId : Nat
  amount : Int
  type : String
deriving DecidableEq, Repr

/-- The relational state: the four tables the credit core touches. -/
structure DB where
  profiles : List Profile := []
  books : List Book := []
  reservations : List Reservation := []
  history : List CreditsHistory := []
deriving DecidableEq, Repr

/-- Errors surfaced by the endpoints.  `notFound`, `insufficientCredits`,
`forbidden` are `HTTPException`s 404/400/403; `nullProfileAccess` is the
uncaught `AttributeError` raised by `profile.credits` when
`session.get(Profile, user_id)` returned `None`; `invalidTransition` and
`serverError` appear in the spec-modelled cancel and the auth gate. -/
inductive ApiError
  | notFound
  | insufficientCredits
  | forbidden
  | nullProfileAccess
  | invalidTransition
  | serverError
  | unauthenticated
deriving DecidableEq, Repr

/-- `session.get(Profile, id)`. -/
def DB.getProfile (db : DB) (i : Nat) : Option Profile :=
  db.profiles.find? (fun p => p.id = i)

/-- `session.get(Book, id)`. -/
def DB.getBook (db : DB) (i : Nat) : Option Book :=
  db.books.find? (fun b => b.id = i)

/-- `session.get(Reservation, id)`. -/
def DB.getReservation (db : DB) (i : Nat) : Option Reservation :=
  db.reservations.find? (fun r => r.id = i)

/-- Overwrite the credits of every profile row with primary key `i`
(`profile.credits = c; session.add(profile)`). -/
def DB.setProfileCredits (db : DB) (i : Nat) (c : Int) : DB :=
  { db with profiles :=
      db.profiles.map (fun p => if p.id = i then { p with credits := c } else p) }

/-- The client-supplied request body of `POST /reservations`
(a full `Reservation` model, "Simplified for demo"); the server-assigned
primary key is supplied separately as `newId`. -/
structure ReservationIn where
  bookId : Nat
  borrowerId : Nat
  status : ReservationStatus := .pending
  startDate : Int
  endDate : Int
  creditsUsed : Int
deriving DecidableEq, Repr

/-- `create_reservation` (api/endpoints/reservations.py).
Looks up the caller's profile and the requested book; 404 when the book is
missing or inactive; then reads `profile.credits` (an `AttributeError` when
the profile row is absent); 400 when the balance is below
`credits_used`; otherwise debits the balance, overwrites `borrower_id` with
the token subject and `status` with `PENDING`, and inserts the row.
No `CreditsHistory` row is written. -/
def create_reservation (userId : Nat) (rin : ReservationIn) (newId : Nat)
    (db : DB) : Except ApiError (DB × Reservation) :=
  let profile? := db.getProfile userId
  match db.getBook rin.bookId with
  | none => .error .notFound
  | some book =>
    if ¬ book.isActive then .error .notFound
    else
      match profile? with
      | none => .error .nullProfileAccess
      | some profile =>
        if profile.credits < rin.creditsUsed then .error .insufficientCredits
        else
          let res : Reservation :=
            { id := newId
              bookId := rin.bookId
              borrowerId := userId
              status := .pending
              startDate := rin.startDate
              endDate := rin.endDate
              creditsUsed := rin.creditsUsed }
          let db1 := db.setProfileCredits userId (profile.credits - rin.creditsUsed)
          .ok ({ db1 with reservations := db1.reservations ++ [res] }, res)

/-- `claim_daily_bonus` (api/endpoints/profiles.py): 404 when the profile
is absent, otherwise `credits += 1` and commit; returns the new balance.
No `CreditsHistory` row is written and no per-day check is performed. -/
def claim_daily_bonus (userId : Nat) (db : DB) : Except ApiError (DB × Int) :=
  match db.getProfile userId with
  | none => .error .notFound
  | some profile =>
    let c := profile.credits + 1
    .ok (db.setProfileCredits userId c, c)

/-- `get_my_profile` (api/endpoints/profiles.py): returns the caller's
profile, auto-creating it (credits default 0) when absent. -/
def get_my_profile (userId : Nat) (username : Option String) (db : DB) :
    DB × Profile :=
  match db.getProfile userId with
  | some p => (db, p)
  | none =>
    let p : Profile := { id := userId, username := username, credits := 0 }
    ({ db with profiles := db.profiles ++ [p] }, p)

/-- Client-supplied body of `POST /books` and `PUT /books/{id}` (a full
`Book` model); `id`, `owner_id` and `created_at` from the body are never
stored. -/
structure BookIn where
  title : String
  author : String
  isActive : Bool := true
deriving DecidableEq, Repr

/-- `create_book` (api/endpoints/books.py): auto-creates the caller's
profile when absent (credits default 0), overwrites `owner_id` with the
token subject, inserts the book. -/
def create_book (userId : Nat) (bin : BookIn) (newId : Nat) (db : DB) :
    DB × Book :=
  let db1 :=
    match db.getProfile userId with
    | some _ => db
    | none =>
      { db with profiles := db.profiles ++ [({ id := userId, credits := 0 } : Profile)] }
  let book : Book :=
    { id := newId, title := bin.title, author := bin.author
      isActive := bin.isActive, ownerId := userId }
  ({ db1 with books := db1.books ++ [book] }, book)

/-- `update_book` (api/endpoints/books.py): 404 when absent, 403 when the
caller is not the owner, otherwise applies the body's fields except
`id`, `owner_id`, `created_at`. -/
def update_book (userId : Nat) (bookId : Nat) (bin : BookIn) (db : DB) :
    Except ApiError (DB × Book) :=
  match db.getBook bookId with
  | none => .error .notFound
  | some b =>
    if b.ownerId ≠ userId then .error .forbidden
    else
      let b' : Book :=
        { b with title := bin.title, author := bin.author
                 isActive := bin.isActive }
      .ok ({ db with books :=
              db.books.map (fun x => if x.id = bookId then b' else x) }, b')

/-- `delete_book` (api/endpoints/books.py): 404 when absent, 403 when the
caller is not the owner, otherwise deletes the row. -/
def delete_book (userId : Nat) (bookId : Nat) (db : DB) : Except ApiError DB :=
  match db.getBook bookId with
  | none => .error .notFound
  | some b =>
    if b.ownerId ≠ userId then .error .forbidden
    else .ok { db with books := db.books.filter (fun x => ¬ x.id = bookId) }

/-! ## Authorization Gate (core/auth.py)

Keys, key sets and tokens are abstracted as `Nat`; signature verification
(`jose.jwt.decode`) is a parameter `decode : key set → token → Option Payload`
returning `none` on `JWTError`.  The process-wide `_jwks_cache` is threaded
explicitly; the number of remote fetches performed is returned so that retry
behaviour is observable. -/

/-- Decoded token claims: the optional `sub` claim. -/
structure Payload where
  sub : Option Nat
deriving DecidableEq, Repr

/-- The remote JWKS endpoint as seen by one call: not configured
(`CLERK_JWKS_URL` unset), failing, or serving a key set. -/
inductive Remote
  | unconfigured
  | fetchError
  | available (jwks : Nat)
deriving DecidableEq, Repr

/-- Outcome of `get_current_user`: the HTTP result, the `_jwks_cache`
after the call, and how many remote fetches were performed. -/
structure AuthOutcome where
  result : Except ApiError Payload
  cache : Option Nat
  fetches : Nat
deriving Repr

/-- `get_jwks` (core/auth.py): returns the cached key set when present
(no fetch); otherwise 500 when no URL is configured or the fetch fails,
else fetches once and populates the cache. -/
def get_jwks (remote : Remote) (cache : Option Nat) :
    Except ApiError Nat × Option Nat × Nat :=
  match cache with
  | some j => (.ok j, some j, 0)
  | none =>
    match remote with
    | .unconfigured => (.error .serverError, none, 0)
    | .fetchError => (.error .serverError, none, 1)
    | .available j => (.ok j, some j, 1)

/-- `get_current_user` (core/auth.py): with a locally configured public key
it verifies against that key only (401 on failure, no fetch); otherwise it
obtains a key set via `get_jwks` and verifies against it, with 401 when
decoding fails or the `sub` claim is missing.  On verification failure the
cache is left as is and no further fetch happens. -/
def get_current_user (localKey : Option Nat) (remote : Remote)
    (decode : Nat → Nat → Option Payload) (token : Nat)
    (cache : Option Nat) : AuthOutcome :=
  match localKey with
  | some k =>
    match decode k token with
    | some p => ⟨.ok p, cache, 0⟩
    | none => ⟨.error .unauthenticated, cache, 0⟩
  | none =>
    match get_jwks remote cache with
    | (.error e, cache1, n) => ⟨.error e, cache1, n⟩
    | (.ok j, cache1, n) =>
      match decode j token with
      | none => ⟨.error .unauthenticated, cache1, n⟩
      | some p =>
        match p.sub with
        | none => ⟨.error .unauthenticated, cache1, n⟩
        | some _ => ⟨.ok p, cache1, n⟩

/-! ## Cancel (modelled from the spec) -/

/-- Add `d` credits to every profile row with primary key `i`. -/
def DB.addProfileCredits (db : DB) (i : Nat) (d : Int) : DB :=
  { db with profiles :=
      db.profiles.map (fun p =>
        if p.id = i then { p with credits := p.credits + d } else p) }

/-- Modelled from the spec: no Cancel endpoint exists under `src/`; this
follows §4.2: `Cancel(reservation_id, actor)` — the borrower (or the book
owner; here the borrower check is used) may cancel, others get `Forbidden`;
allowed from `pending` or `active`, else `InvalidTransition`; atomically
refunds `credits_used` to the borrower's balance, appends a
`reservation_refund` history row, and sets the status to `cancelled`. -/
def cancel_reservation (actorId : Nat) (resId : Nat) (db : DB) :
    Except ApiError (DB × Reservation) :=
  match db.getReservation resId with
  | none => .error .notFound
  | some r =>
    if r.borrowerId ≠ actorId then .error .forbidden
    else if r.status = .pending ∨ r.status = .active then
      let r' : Reservation := { r with status := .cancelled }
      let db1 := db.addProfileCredits r.borrowerId r.creditsUsed
      let db2 :=
        { db1 with
          reservations :=
            db1.reservations.map (fun x => if x.id = resId then r' else x)
          history := db1.history ++
            [{ userId := r.borrowerId, amount := r.creditsUsed
               type := "reservation_refund" }] }
      .ok (db2, r')
    else .error .invalidTransition

/-! ## Operation sequences -/

/-- One client-visible operation of the credit core.  Server-assigned
primary keys are carried in the operation. -/
inductive Op
  | createRes (userId : Nat) (rin : ReservationIn) (newId : Nat)
  | dailyBonus (userId : Nat)
  | myProfile (userId : Nat) (username : Option String)
  | newBook (userId : Nat) (bin : BookIn) (newId : Nat)
deriving Repr

/-- Apply one operation; a failing operation (HTTPException or uncaught
exception before commit) leaves the database unchanged. -/
def applyOp (op : Op) (db : DB) : DB :=
  match op with
  | .createRes u rin n =>
    match create_reservation u rin n db with
    | .ok (db1, _) => db1
    | .error _ => db
  | .dailyBonus u =>
    match claim_daily_bonus u db with
    | .ok (db1, _) => db1
    | .error _ => db
  | .myProfile u un => (get_my_profile u un db).1
  | .newBook u bin n => (create_book u bin n db).1

/-- Apply a sequence of operations from left to right. -/
def runOps (ops : List Op) (db : DB) : DB :=
  ops.foldl (fun d o => applyOp o d) db

/-- Every profile's balance is non-negative (spec §3 invariant). -/
def DB.nonneg (db : DB) : Bool :=
  db.profiles.all (fun p => decide (0 ≤ p.credits))

/-- The ledger reconciliation invariant (spec §3 / §8): every profile's
balance equals the sum of its `CreditsHistory` amounts. -/
def DB.ledgerOk (db : DB) : Bool :=
  db.profiles.all (fun p =>
    decide (p.credits =
      ((db.history.filter (fun h => h.userId = p.id)).map
        (fun h => h.amount)).sum))

/-- A small concrete database used by the concrete evaluations below:
one profile with 5 credits and one active book owned by someone else. -/
def dbEx : DB :=
  { profiles := [{ id := 1, credits := 5 }]
    books := [{ id := 10, title := "Dune", author := "Herbert"
                isActive := true, ownerId := 2 }]
    reservations := []
    history := [] }

/-- A database with one profile whose balance (0) agrees with its (empty)
credit history. -/
def dbLedger : DB := { profiles := [{ id := 7, credits := 0 }] }

/-- Key-set verifier for the C6 scenario: only key set 2 verifies the
token, the stale key set 1 does not. -/
def decodeEx : Nat → Nat → Option Payload :=
  fun j _ => if j = 2 then some { sub := some 5 } else none

/-- The database state after a successful cancel of reservation `r`
(primary key `resId`): refund applied, status overwritten, refund row
appended. -/
def cancelResult (db : DB) (resId : Nat) (r : Reservation) : DB :=
  { db.addProfileCredits r.borrowerId r.creditsUsed with
    reservations :=
      (db.addProfileCredits r.borrowerId r.creditsUsed).reservations.map
        (fun x => if x.id = resId
          then { r with status := .cancelled } else x)
    history :=
      (db.addProfileCredits r.borrowerId r.creditsUsed).history ++
        [{ userId := r.borrowerId, amount := r.creditsUsed
           type := "reservation_refund" }] }

/-! ## Helper lemmas -/

/-- Looking up key `i` after updating exactly the rows with key `i` (by a
key-preserving update) is looking up first and updating after. -/
theorem find?_update_of_id {α : Type} (f : α → Nat) (l : List α) (i : Nat)
    (g : α → α) (hg : ∀ a, f a = i → f (g a) = i) :
    (l.map (fun a => if f a = i then g a else a)).find? (fun a => f a = i) =
      (l.find? (fun a => f a = i)).map g := by
  induction l with
  | nil => rfl
  | cons a l ih =>
    by_cases h : f a = i
    · rw [List.map_cons, if_pos h,
        List.find?_cons_of_pos _ (by simpa using hg a h),
        List.find?_cons_of_pos _ (by simpa using h)]
      rfl
    · rw [List.map_cons, if_neg h,
        List.find?_cons_of_neg _ (by simpa using h),
        List.find?_cons_of_neg _ (by simpa using h)]
      exact ih

/-! ## Claims -/

/-- C1: the spec's ledger reconciliation invariant fails on the code: the
endpoints never append a `CreditsHistory` row, so a single daily-bonus
claim on a profile whose balance (0) matches its (empty) history leaves a
state where the balance (1) no longer equals the history sum (0). -/
theorem daily_bonus_breaks_ledger_invariant :
    dbLedger.ledgerOk = true ∧
    claim_daily_bonus 7 dbLedger =
      .ok ({ profiles := [{ id := 7, credits := 1 }] }, 1) ∧
    DB.ledgerOk { profiles := [{ id := 7, credits := 1 }] } = false :=
  ⟨rfl, rfl, rfl⟩

/-- C2: when the borrower's balance is below `credits_used` (and the
request reaches the balance check: the book exists and is active, the
profile row exists), `create_reservation` fails with `InsufficientCredits`;
an `.error` result carries no database, i.e. the state is unchanged — no
partial debit, no inserted row. -/
theorem create_insufficient_credits_rejected
    (db : DB) (userId newId : Nat) (rin : ReservationIn)
    (p : Profile) (b : Book)
    (hp : db.getProfile userId = some p)
    (hb : db.getBook rin.bookId = some b)
    (hact : b.isActive = true)
    (hlt : p.credits < rin.creditsUsed) :
    create_reservation userId rin newId db = .error .insufficientCredits := by
  simp [create_reservation, hp, hb, hact, hlt]

/-- Witness for C2: a borrower with 5 credits requesting 9 is rejected. -/
theorem create_insufficient_credits_rejected_witness :
    create_reservation 1
      { bookId := 10, borrowerId := 1, status := .pending
        startDate := 0, endDate := 7, creditsUsed := 9 } 100 dbEx =
      .error .insufficientCredits :=
  create_insufficient_credits_rejected dbEx 1 100 _
    { id := 1, credits := 5 }
    { id := 10, title := "Dune", author := "Herbert"
      isActive := true, ownerId := 2 }
    rfl rfl rfl (by decide)

/-- C3 (failing input): a create call satisfying every precondition —
active book 10, borrower 1 holding 5 credits, 3 requested — succeeds,
debits the balance to 2 and inserts the pending reservation, but appends
no `CreditsHistory` row (`history` stays empty), against the claimed
`reservation_spend` append. -/
theorem create_reservation_writes_no_history :
    create_reservation 1
      { bookId := 10, borrowerId := 9, status := .active
        startDate := 0, endDate := 7, creditsUsed := 3 } 100 dbEx =
      .ok ({ profiles := [{ id := 1, credits := 2 }]
             books := dbEx.books
             reservations := [{ id := 100, bookId := 10, borrowerId := 1
                                status := .pending, startDate := 0
                                endDate := 7, creditsUsed := 3 }]
             history := [] },
           { id := 100, bookId := 10, borrowerId := 1, status := .pending
             startDate := 0, endDate := 7, creditsUsed := 3 }) := rfl

/-- C7 (counterexample): `create_reservation` performs no date-window
validation: a call with `end_date ≤ start_date` (end 0, start 5) does not
fail with any error — it succeeds and mutates the state. -/
theorem create_accepts_inverted_window :
    (0 : Int) ≤ 5 ∧
    create_reservation 1
      { bookId := 10, borrowerId := 1, status := .pending
        startDate := 5, endDate := 0, creditsUsed := 3 } 100 dbEx =
      .ok ({ profiles := [{ id := 1, credits := 2 }]
             books := dbEx.books
             reservations := [{ id := 100, bookId := 10, borrowerId := 1
                                status := .pending, startDate := 5
                                endDate := 0, creditsUsed := 3 }]
             history := [] },
           { id := 100, bookId := 10, borrowerId := 1, status := .pending
             startDate := 5, endDate := 0, creditsUsed := 3 }) :=
  ⟨by decide, rfl⟩

/-- C7 (amended): the code performs no date-window validation; a create
call with `end_date ≤ start_date` is processed exactly like any other —
when the book is active, the profile exists and the balance suffices it
succeeds, storing the inverted window as given. -/
theorem create_ignores_window
    (db : DB) (userId newId : Nat) (rin : ReservationIn)
    (p : Profile) (b : Book)
    (hp : db.getProfile userId = some p)
    (hb : db.getBook rin.bookId = some b)
    (hact : b.isActive = true)
    (hge : rin.creditsUsed ≤ p.credits)
    (hwin : rin.endDate ≤ rin.startDate) :
    ∃ db1 res, create_reservation userId rin newId db = .ok (db1, res) ∧
      res.startDate = rin.startDate ∧ res.endDate = rin.endDate := by
  simp only [create_reservation, hp, hb, hact, not_lt.mpr hge,
    Bool.not_true, if_false, if_neg, not_true_eq_false, Bool.false_eq_true,
    if_true, ite_false, ite_true]
  exact ⟨_, _, rfl, rfl, rfl⟩

/-- Witness for C7 (amended): window end 0 ≤ start 5, yet create succeeds. -/
theorem create_ignores_window_witness :
    ∃ db1 res, create_reservation 1
      { bookId := 10, borrowerId := 1, status := .pending
        startDate := 5, endDate := 0, creditsUsed := 3 } 100 dbEx =
        .ok (db1, res) ∧
      res.startDate = 5 ∧ res.endDate = 0 :=
  create_ignores_window dbEx 1 100 _
    { id := 1, credits := 5 }
    { id := 10, title := "Dune", author := "Herbert"
      isActive := true, ownerId := 2 }
    rfl rfl rfl (by decide) (by decide)

/-- C8: a book update or delete by a verified subject other than the
book's owner fails with `Forbidden`; the `.error` result carries no
database, so the book row is neither modified nor deleted. -/
theorem book_mutation_requires_owner
    (db : DB) (userId bookId : Nat) (bin : BookIn) (b : Book)
    (hb : db.getBook bookId = some b)
    (hne : b.ownerId ≠ userId) :
    update_book userId bookId bin db = .error .forbidden ∧
    delete_book userId bookId db = .error .forbidden := by
  constructor <;> simp [update_book, delete_book, hb, hne]

/-- Witness for C8: user 1 may not touch the book owned by user 2. -/
theorem book_mutation_requires_owner_witness :
    update_book 1 10 { title := "x", author := "y" } dbEx =
      .error .forbidden ∧
    delete_book 1 10 dbEx = .error .forbidden :=
  book_mutation_requires_owner dbEx 1 10 _
    { id := 10, title := "Dune", author := "Herbert"
      isActive := true, ownerId := 2 }
    rfl (by decide)

/-- C9: a successful create stores the verified token subject as
`borrower_id` and `pending` as `status`; the client-supplied `borrower_id`
and `status` body fields influence nothing — the whole call is invariant
under changing them. -/
theorem create_forces_borrower_and_status
    (db db1 : DB) (userId newId : Nat) (rin : ReservationIn)
    (res : Reservation)
    (h : create_reservation userId rin newId db = .ok (db1, res)) :
    res.borrowerId = userId ∧ res.status = .pending ∧
    ∀ b s, create_reservation userId
        { rin with borrowerId := b, status := s } newId db =
      create_reservation userId rin newId db := by
  have hb : res.borrowerId = userId ∧ res.status = .pending := by
    simp only [create_reservation] at h
    split at h
    · cases h
    · split at h
      · cases h
      · split at h
        · cases h
        · split at h
          · cases h
          · simp only [Except.ok.injEq, Prod.mk.injEq] at h
            obtain ⟨-, rfl⟩ := h
            exact ⟨rfl, rfl⟩
  exact ⟨hb.1, hb.2, fun b s => rfl⟩

/-- Witness for C9: the create of `create_reservation_writes_no_history`,
whose request body carried borrower 9 and status `active`, stores
borrower 1 (the subject) and status `pending`. -/
theorem create_forces_borrower_and_status_witness :
    (Reservation.borrowerId
        { id := 100, bookId := 10, borrowerId := 1, status := .pending
          startDate := 0, endDate := 7, creditsUsed := 3 } = 1) ∧
    (Reservation.status
        { id := 100, bookId := 10, borrowerId := 1, status := .pending
          startDate := 0, endDate := 7, creditsUsed := 3 } =
      .pending) ∧
    ∀ b s, create_reservation 1
        { bookId := 10, borrowerId := b, status := s
          startDate := 0, endDate := 7, creditsUsed := 3 } 100 dbEx =
      create_reservation 1
        { bookId := 10, borrowerId := 9, status := .active
          startDate := 0, endDate := 7, creditsUsed := 3 } 100 dbEx :=
  create_forces_borrower_and_status dbEx _ 1 100
    { bookId := 10, borrowerId := 9, status := .active
      startDate := 0, endDate := 7, creditsUsed := 3 } _ rfl

/-- C10: reservation create does not auto-create the caller's profile:
with no profile row it crashes with the uncaught `AttributeError` from
`profile.credits` (modelled `nullProfileAccess`) before any commit, so
nothing is mutated — while `GET /profiles/me` and `POST /books` auto-create
the missing profile with 0 credits. -/
theorem missing_profile_crash_vs_autocreate
    (db : DB) (userId newId bookNewId : Nat) (rin : ReservationIn)
    (b : Book) (un : Option String) (bin : BookIn)
    (hp : db.getProfile userId = none)
    (hb : db.getBook rin.bookId = some b)
    (hact : b.isActive = true) :
    create_reservation userId rin newId db = .error .nullProfileAccess ∧
    (get_my_profile userId un db).1.getProfile userId =
      some { id := userId, username := un, credits := 0 } ∧
    (create_book userId bin bookNewId db).1.getProfile userId =
      some { id := userId, username := none, credits := 0 } := by
  have hp' : db.profiles.find? (fun p => p.id = userId) = none := hp
  refine ⟨?_, ?_, ?_⟩
  · simp [create_reservation, hp, hb, hact]
  · simp [get_my_profile, hp, DB.getProfile, List.find?_append, hp']
  · simp [create_book, hp, DB.getProfile, List.find?_append, hp']

/-- Witness for C10: user 3 has no profile row in `dbEx`. -/
theorem missing_profile_crash_vs_autocreate_witness :
    create_reservation 3
      { bookId := 10, borrowerId := 3, status := .pending
        startDate := 0, endDate := 7, creditsUsed := 0 } 100 dbEx =
      .error .nullProfileAccess ∧
    (get_my_profile 3 (some "kid") dbEx).1.getProfile 3 =
      some { id := 3, username := some "kid", credits := 0 } ∧
    (create_book 3 { title := "x", author := "y" } 11 dbEx).1.getProfile 3 =
      some { id := 3, username := none, credits := 0 } :=
  missing_profile_crash_vs_autocreate dbEx 3 100 11 _
    { id := 10, title := "Dune", author := "Herbert"
      isActive := true, ownerId := 2 }
    (some "kid") _ rfl rfl rfl

/-- C6 (counterexample): with stale key set 1 cached and the remote
serving key set 2, a token failing against 1 but verifying against 2 is
rejected 401 outright: the cache is kept and zero fetches happen — the
gate neither invalidates the cache nor retries with a forced refresh,
although the retry the claim describes would have succeeded. -/
theorem auth_gate_never_retries :
    decodeEx 1 0 = none ∧
    decodeEx 2 0 = some { sub := some 5 } ∧
    get_current_user none (.available 2) decodeEx 0 (some 1) =
      { result := .error .unauthenticated, cache := some 1, fetches := 0 } :=
  ⟨rfl, rfl, rfl⟩

/-- C6 (amended): when verification against the cached key set fails the
gate surfaces `Unauthenticated` immediately, keeping the cache and
fetching nothing; and no call ever performs more than one remote fetch
(the lazy population of an empty cache). -/
theorem auth_gate_fails_fast_no_refetch
    (remote : Remote) (dec : Nat → Nat → Option Payload) (token j : Nat)
    (hfail : dec j token = none) :
    get_current_user none remote dec token (some j) =
      { result := .error .unauthenticated, cache := some j, fetches := 0 } ∧
    ∀ cache, (get_current_user none remote dec token cache).fetches ≤ 1 := by
  constructor
  · simp [get_current_user, get_jwks, hfail]
  · intro cache
    cases cache <;> cases remote <;>
      simp only [get_current_user, get_jwks] <;>
      (repeat' split) <;> norm_num

/-- Witness for C6 (amended): the concrete stale-cache scenario. -/
theorem auth_gate_fails_fast_no_refetch_witness :
    get_current_user none (.available 2) decodeEx 0 (some 1) =
      { result := .error .unauthenticated, cache := some 1, fetches := 0 } ∧
    ∀ cache, (get_current_user none (.available 2) decodeEx 0 cache).fetches ≤ 1 :=
  auth_gate_fails_fast_no_refetch (.available 2) decodeEx 0 1 rfl

/-- A cancel that finds an already-cancelled reservation owned by the
actor fails with `InvalidTransition`. -/
theorem cancel_terminal (db1 : DB) (actor resId : Nat) (r1 : Reservation)
    (hg : db1.getReservation resId = some r1)
    (hb : r1.borrowerId = actor)
    (hs : r1.status = .cancelled) :
    cancel_reservation actor resId db1 = .error .invalidTransition := by
  simp [cancel_reservation, hg, hb, hs]

/-- C4: a first cancel of a `pending` or `active` reservation (by its
borrower, whose profile is `p`) refunds exactly `credits_used`, appends
one `reservation_refund` history row and sets the status to `cancelled`,
all in one step; a second cancel of the same reservation refunds nothing
and fails with `InvalidTransition`. -/
theorem cancel_refunds_exactly_once
    (db : DB) (actor resId : Nat) (r : Reservation) (p : Profile)
    (hr : db.getReservation resId = some r)
    (hbor : r.borrowerId = actor)
    (hp : db.getProfile actor = some p)
    (hst : r.status = .pending ∨ r.status = .active) :
    ∃ db1 r1, cancel_reservation actor resId db = .ok (db1, r1) ∧
      r1.status = .cancelled ∧
      db1.getProfile actor =
        some { p with credits := p.credits + r.creditsUsed } ∧
      db1.history = db.history ++
        [{ userId := actor, amount := r.creditsUsed
           type := "reservation_refund" }] ∧
      cancel_reservation actor resId db1 = .error .invalidTransition := by
  subst hbor
  have hid : r.id = resId := by simpa using List.find?_some hr
  have hbranch : cancel_reservation r.borrowerId resId db =
      .ok (cancelResult db resId r, { r with status := .cancelled }) := by
    simp only [cancel_reservation, hr]
    rw [if_neg (by simp), if_pos hst]
    rfl
  refine ⟨cancelResult db resId r, _, hbranch, rfl, ?_, ?_, ?_⟩
  · show (db.profiles.map (fun q =>
        if q.id = r.borrowerId
          then { q with credits := q.credits + r.creditsUsed } else q)).find?
        (fun q => q.id = r.borrowerId) = _
    rw [find?_update_of_id Profile.id db.profiles r.borrowerId
        (fun q => { q with credits := q.credits + r.creditsUsed })
        (fun a ha => ha)]
    have hp' : db.profiles.find? (fun q => q.id = r.borrowerId) = some p := hp
    rw [hp']
    rfl
  · rfl
  · have hfind2 : (cancelResult db resId r).getReservation resId =
        some { r with status := .cancelled } := by
      show (db.reservations.map (fun x =>
          if x.id = resId then { r with status := .cancelled } else x)).find?
        (fun x => x.id = resId) = _
      rw [find?_update_of_id Reservation.id db.reservations resId
          (fun _ => { r with status := .cancelled }) (fun a _ => hid)]
      have hr' : db.reservations.find? (fun x => x.id = resId) = some r := hr
      rw [hr']
      rfl
    exact cancel_terminal (cancelResult db resId r) r.borrowerId resId
      { r with status := .cancelled } hfind2 rfl rfl

/-- Witness for C4: cancelling the pending reservation of borrower 1
(5 − 3 = 2 credits left) refunds the 3 credits once, then fails. -/
theorem cancel_refunds_exactly_once_witness :
    ∃ db1 r1, cancel_reservation 1 100
        { profiles := [{ id := 1, credits := 2 }]
          books := dbEx.books
          reservations := [{ id := 100, bookId := 10, borrowerId := 1
                             status := .pending, startDate := 0
                             endDate := 7, creditsUsed := 3 }]
          history := [] } = .ok (db1, r1) ∧
      r1.status = .cancelled ∧
      db1.getProfile 1 = some { id := 1, credits := 2 + 3 } ∧
      db1.history = [] ++
        [{ userId := 1, amount := 3, type := "reservation_refund" }] ∧
      cancel_reservation 1 100 db1 = .error .invalidTransition :=
  cancel_refunds_exactly_once _ 1 100
    { id := 100, bookId := 10, borrowerId := 1, status := .pending
      startDate := 0, endDate := 7, creditsUsed := 3 }
    { id := 1, credits := 2 }
    rfl rfl rfl (Or.inl rfl)

/-- `db.nonneg` unfolded to a membership statement. -/
theorem nonneg_iff (db : DB) :
    db.nonneg = true ↔ ∀ p ∈ db.profiles, 0 ≤ p.credits := by
  simp [DB.nonneg, List.all_eq_true]

/-- Writing a non-negative balance preserves non-negativity of all rows. -/
theorem nonneg_setProfileCredits (db : DB) (i : Nat) (c : Int)
    (h : db.nonneg = true) (hc : 0 ≤ c) :
    (db.setProfileCredits i c).nonneg = true := by
  rw [nonneg_iff] at h ⊢
  intro q hq
  simp only [DB.setProfileCredits] at hq
  obtain ⟨a, ha, rfl⟩ := List.mem_map.mp hq
  by_cases hai : a.id = i
  · simpa [hai] using hc
  · simpa [hai] using h a ha

/-- Every single operation preserves the non-negative balance invariant. -/
theorem nonneg_applyOp (op : Op) (db : DB) (h : db.nonneg = true) :
    (applyOp op db).nonneg = true := by
  cases op with
  | createRes u rin n =>
    simp only [applyOp]
    split
    · next db1 res heq =>
      simp only [create_reservation] at heq
      split at heq
      · cases heq
      · split at heq
        · cases heq
        · split at heq
          · cases heq
          · split at heq
            · cases heq
            · next profile hprof hguard =>
              simp only [Except.ok.injEq, Prod.mk.injEq] at heq
              obtain ⟨rfl, -⟩ := heq
              exact nonneg_setProfileCredits db u _ h
                (Int.sub_nonneg.mpr (not_lt.mp hguard))
    · exact h
  | dailyBonus u =>
    simp only [applyOp]
    split
    · next db1 c heq =>
      simp only [claim_daily_bonus] at heq
      split at heq
      · cases heq
      · next profile hprof =>
        simp only [Except.ok.injEq, Prod.mk.injEq] at heq
        obtain ⟨rfl, -⟩ := heq
        have hmem : 0 ≤ profile.credits :=
          (nonneg_iff db).mp h profile (List.mem_of_find?_eq_some hprof)
        exact nonneg_setProfileCredits db u _ h (by linarith)
    · exact h
  | myProfile u un =>
    simp only [applyOp, get_my_profile]
    split
    · exact h
    · rw [nonneg_iff] at h ⊢
      intro q hq
      rcases List.mem_append.mp hq with hq | hq
      · exact h q hq
      · simp only [List.mem_singleton] at hq
        subst hq
        exact le_refl 0
  | newBook u bin n =>
    simp only [applyOp, create_book]
    split
    · exact h
    · rw [nonneg_iff] at h ⊢
      intro q hq
      rcases List.mem_append.mp hq with hq | hq
      · exact h q hq
      · simp only [List.mem_singleton] at hq
        subst hq
        exact le_refl 0

/-- C5: every profile balance that starts non-negative stays non-negative
under any sequence of operations (reservation create, daily-bonus claim,
profile auto-creation via `GET /profiles/me` or `POST /books`). -/
theorem nonneg_invariant_runOps (ops : List Op) (db : DB)
    (h : db.nonneg = true) : (runOps ops db).nonneg = true := by
  induction ops generalizing db with
  | nil => exact h
  | cons o os ih =>
    exact ih (applyOp o db) (nonneg_applyOp o db h)

/-- Witness for C5: a bonus claim followed by a create and a stray bonus
claim for a non-existent user keeps all balances non-negative. -/
theorem nonneg_invariant_runOps_witness :
    (runOps [Op.dailyBonus 1,
             Op.createRes 1 { bookId := 10, borrowerId := 1
                              status := .pending, startDate := 0
                              endDate := 7, creditsUsed := 6 } 100,
             Op.dailyBonus 42] dbEx).nonneg = true :=
  nonneg_invariant_runOps _ dbEx rfl

end Bookyard
